import Mathlib

/-!
Verification of the fratak loan-calculator core.

This file shallowly embeds the `LoanCalculator` class (the canonical engine,
duplicated verbatim in `src/unnamed/part_005` and `src/js/auth.js`) and the
legacy engine `calculateStandardLoan` from
`src/loan-calculator-refactored/js/loan-calculations.js`.

Modelling conventions:
* JavaScript numbers are modelled as exact rationals (`ℚ`); the source's
  formulas are closed under rational arithmetic except where noted.
* The source derives `monthlyInflationRate = (1+annualInflationRate)^(1/12) - 1`
  for indexed loans, an irrational function of the annual rate.  The embedding
  takes this derived monthly rate directly as the configuration field
  `monthlyInflationRaw` (0 corresponds to `annualInflationRate = 0`); the
  engine still zeroes it for non-indexed loan types exactly as the source does.
* `loanTermYears` and `holdingYears` are whole numbers of years, as produced by
  the UI; this keeps the integer-exponent powers of the source exact in `ℚ`.
* `startDate` and the per-entry `date` field are calendar bookkeeping with no
  numeric content and are omitted; no claim concerns them.
* Schedule entries carry one ghost field, `balanceAfterInflation`, recording
  the loop-local `balanceAfterInflation` of the period that emitted the entry;
  it mirrors no source field and exists only so specifications can refer to it.
* `rentalDurationMonths` is optional in the source (`?? Infinity`); `none`
  models the absent case (no cutoff).
-/

inductive LoanType where
  | indexedAnnuity
  | nonIndexedAnnuity
  | nonIndexedEqualPrincipal
deriving DecidableEq

/-- Rental configuration record, mirroring the fields read by
`LoanCalculator.calculateNetRent` and the scheduler. -/
structure RentalConfig where
  grossRent : ℚ
  taxRate : ℚ
  vacancyRate : ℚ
  operatingCosts : ℚ
  indexed : Bool
  indexCosts : Bool
  applyToLoan : Bool
  rentalDurationMonths : Option ℚ
deriving DecidableEq

/-- Loan configuration record, mirroring the destructuring at the top of
`LoanCalculator.calculateSchedule`. -/
structure LoanConfig where
  loanAmount : ℚ
  annualInterestRate : ℚ
  monthlyInflationRaw : ℚ
  loanTermYears : ℕ
  monthlyFee : ℚ
  loanType : LoanType
  extraPayment : ℚ
  indexExtraPayment : Bool
  fixedPayment : ℚ
  rentalIncome : Option RentalConfig
  acceleratedPayoff : Bool
deriving DecidableEq

/-- One schedule entry, as pushed by Step 11 of the loop (dates omitted,
ghost field `balanceAfterInflation` added; see the header comment). -/
structure Entry where
  month : ℕ
  balanceStart : ℚ
  inflation : ℚ
  interest : ℚ
  principal : ℚ
  fee : ℚ
  requiredPayment : ℚ
  manualExtra : ℚ
  rentBasedExtra : ℚ
  rentalContribution : ℚ
  totalPaymentToLoan : ℚ
  userOutOfPocket : ℚ
  balance : ℚ
  balanceAfterInflation : ℚ
deriving DecidableEq

instance : Inhabited Entry :=
  ⟨⟨0, 0, 0, 0, 0, 0, 0, 0, 0, 0, 0, 0, 0, 0⟩⟩

/-- The summary record returned by `calculateSchedule`. -/
structure Summary where
  originalLoan : ℚ
  loanType : LoanType
  termMonths : ℕ
  termYears : ℚ
  totalPaidByUser : ℚ
  totalPaidToLoan : ℚ
  totalInterest : ℚ
  totalInflation : ℚ
  totalFees : ℚ
  totalRentalContribution : ℚ
  firstPayment : ℚ
  firstUserPayment : ℚ
  lastPayment : ℚ
  averageMonthlyPayment : ℚ
deriving DecidableEq

structure ScheduleResult where
  schedule : List Entry
  summary : Summary
deriving DecidableEq

/-- The mutable loop state of `calculateSchedule` (tracking variables plus
`month` and `cumulativeInflationFactor`). -/
structure SimState where
  month : ℕ
  balance : ℚ
  cumulativeInflationFactor : ℚ
  totalInterest : ℚ
  totalInflation : ℚ
  totalPaidByUser : ℚ
  totalPaidToLoan : ℚ
  totalFees : ℚ
  totalRentalContribution : ℚ
deriving DecidableEq

/-- `LoanCalculator.calculateAnnuityPayment(principal, monthlyRate, months)`. -/
def calculateAnnuityPayment (principal monthlyRate : ℚ) (months : ℕ) : ℚ :=
  if principal ≤ 0 then 0
  else if monthlyRate = 0 then principal / months
  else
    let factor := (1 + monthlyRate) ^ months
    principal * (monthlyRate * factor) / (factor - 1)

/-- `LoanCalculator.calculateNetRent(rental, inflationFactor)`; the source
defaults `inflationFactor` to 1, callers here pass it explicitly. -/
def calculateNetRent (rental : RentalConfig) (inflationFactor : ℚ) : ℚ :=
  let adjustedGrossRent :=
    if rental.indexed then rental.grossRent * inflationFactor else rental.grossRent
  let adjustedCosts :=
    if rental.indexCosts then rental.operatingCosts * inflationFactor
    else rental.operatingCosts
  let taxAmount := adjustedGrossRent * rental.taxRate
  let vacancyLoss := adjustedGrossRent * rental.vacancyRate
  max 0 (adjustedGrossRent - taxAmount - vacancyLoss - adjustedCosts)

/-- `monthlyInterestRate = annualInterestRate / 12`. -/
def monthlyRateOf (c : LoanConfig) : ℚ := c.annualInterestRate / 12

/-- `monthlyInflationRate = isIndexed ? ... : 0` (see header comment on the
derived monthly rate). -/
def monthlyInflOf (c : LoanConfig) : ℚ :=
  if c.loanType = LoanType.indexedAnnuity then c.monthlyInflationRaw else 0

/-- `totalMonths = loanTermYears * 12`. -/
def totalMonthsOf (c : LoanConfig) : ℕ := c.loanTermYears * 12

/-- The `basePayment` computed before the loop. -/
def basePaymentOf (c : LoanConfig) : ℚ :=
  if c.loanType = LoanType.nonIndexedEqualPrincipal then
    c.loanAmount / (totalMonthsOf c : ℚ)
  else if monthlyRateOf c = 0 then
    c.loanAmount / (totalMonthsOf c : ℚ)
  else
    c.loanAmount *
      (monthlyRateOf c * (1 + monthlyRateOf c) ^ (totalMonthsOf c)) /
      ((1 + monthlyRateOf c) ^ (totalMonthsOf c) - 1)

/-- Step 1 of the loop body: `balanceAfterInflation`. -/
def balAfterInfl (c : LoanConfig) (s : SimState) : ℚ :=
  s.balance + s.balance * monthlyInflOf c

/-- Step 2 of the loop body: interest on the inflated balance. -/
def interestAt (c : LoanConfig) (s : SimState) : ℚ :=
  balAfterInfl c s * monthlyRateOf c

/-- Step 3 of the loop body: the required payment for the period entered from
state `s` (the period's `month` is `s.month + 1`). -/
def requiredPaymentAt (c : LoanConfig) (s : SimState) : ℚ :=
  let month := s.month + 1
  let remainingMonths : ℕ := max 1 (totalMonthsOf c + 1 - month)
  let bAI := balAfterInfl c s
  let interest := interestAt c s
  if c.loanType = LoanType.nonIndexedEqualPrincipal then
    if c.acceleratedPayoff then
      c.loanAmount / (totalMonthsOf c : ℚ) + interest
    else
      bAI / (remainingMonths : ℚ) + interest
  else if c.loanType = LoanType.indexedAnnuity then
    if c.acceleratedPayoff then
      basePaymentOf c * s.cumulativeInflationFactor
    else
      calculateAnnuityPayment (bAI / s.cumulativeInflationFactor) (monthlyRateOf c)
        remainingMonths * s.cumulativeInflationFactor
  else
    if c.acceleratedPayoff then
      basePaymentOf c
    else
      calculateAnnuityPayment bAI (monthlyRateOf c) remainingMonths

/-- Step 4 of the loop body: the manual extra payment before the fixed-payment
override. -/
def manualExtraAt (c : LoanConfig) (s : SimState) : ℚ :=
  if 0 < c.extraPayment then
    if c.indexExtraPayment then c.extraPayment * s.cumulativeInflationFactor
    else c.extraPayment
  else 0

/-- The fixed-payment override: `paymentBeforeRental`. -/
def paymentBeforeRentalAt (c : LoanConfig) (s : SimState) : ℚ :=
  if 0 < c.fixedPayment ∧ requiredPaymentAt c s < c.fixedPayment then c.fixedPayment
  else requiredPaymentAt c s

/-- The manual extra after the fixed-payment override (zeroed when the
override is applied). -/
def manualExtraFinalAt (c : LoanConfig) (s : SimState) : ℚ :=
  if 0 < c.fixedPayment ∧ requiredPaymentAt c s < c.fixedPayment then 0
  else manualExtraAt c s

/-- `rentalActive = rentalIncome && month <= rentalDurationMonths` for the
period entered from `s` (absent duration means no cutoff). -/
def rentalActiveAt (c : LoanConfig) (s : SimState) : Bool :=
  match c.rentalIncome with
  | none => false
  | some r =>
    match r.rentalDurationMonths with
    | none => true
    | some d => decide ((s.month + 1 : ℚ) ≤ d)

/-- One iteration of the `calculateSchedule` loop body: the pushed entry and
the updated state.  The tuple bound to `rentalSplit` is
`(rentalContribution, rentBasedExtra, userOutOfPocket, totalRentalContribution
increment)` from Step 5 of the source. -/
def schedStep (c : LoanConfig) (s : SimState) : Entry × SimState :=
  let month := s.month + 1
  let inflationAmount := s.balance * monthlyInflOf c
  let bAI := balAfterInfl c s
  let interest := interestAt c s
  let pbr := paymentBeforeRentalAt c s
  let mex := manualExtraFinalAt c s
  let rentalSplit : ℚ × ℚ × ℚ × ℚ :=
    match c.rentalIncome with
    | none => (0, 0, pbr + mex, 0)
    | some r =>
      if rentalActiveAt c s && r.applyToLoan then
        let netRent := calculateNetRent r s.cumulativeInflationFactor
        if pbr ≤ netRent then
          (pbr, netRent - pbr, mex, pbr + (netRent - pbr))
        else
          (netRent, 0, (pbr - netRent) + mex, netRent + 0)
      else (0, 0, pbr + mex, 0)
  let rentalContribution := rentalSplit.1
  let rentBasedExtra := rentalSplit.2.1
  let userOutOfPocket := rentalSplit.2.2.1
  let rentalTotalDelta := rentalSplit.2.2.2
  let totalPaymentToLoan := pbr + mex + rentBasedExtra
  let principalPaid := min (totalPaymentToLoan - interest) bAI
  let actualPrincipal := max 0 principalPaid
  let newBalanceRaw := bAI - actualPrincipal
  let newBalance := if newBalanceRaw < 1 / 100 then 0 else newBalanceRaw
  let entry : Entry :=
    { month := month
      balanceStart := newBalance + actualPrincipal
      inflation := inflationAmount
      interest := interest
      principal := actualPrincipal
      fee := c.monthlyFee
      requiredPayment := requiredPaymentAt c s
      manualExtra := mex
      rentBasedExtra := rentBasedExtra
      rentalContribution := rentalContribution
      totalPaymentToLoan := totalPaymentToLoan + c.monthlyFee
      userOutOfPocket := userOutOfPocket + c.monthlyFee
      balance := newBalance
      balanceAfterInflation := bAI }
  let next : SimState :=
    { month := month
      balance := newBalance
      cumulativeInflationFactor := s.cumulativeInflationFactor * (1 + monthlyInflOf c)
      totalInterest := s.totalInterest + interest
      totalInflation := s.totalInflation + inflationAmount
      totalPaidByUser := s.totalPaidByUser + (userOutOfPocket + c.monthlyFee)
      totalPaidToLoan := s.totalPaidToLoan + (totalPaymentToLoan + c.monthlyFee)
      totalFees := s.totalFees + c.monthlyFee
      totalRentalContribution := s.totalRentalContribution + rentalTotalDelta }
  (entry, next)

/-- The loop guard
`(acceleratedPayoff ? balance > 0.01 : month < totalMonths) && month < 600`. -/
def loopCond (c : LoanConfig) (s : SimState) : Bool :=
  (if c.acceleratedPayoff then decide (1 / 100 < s.balance)
   else decide (s.month < totalMonthsOf c)) &&
  decide (s.month < 600)

/-- The `calculateSchedule` loop, fuelled.  Fuel 600 equals the source's hard
cap: the guard `month < 600` together with `month` increasing by one per
iteration means 600 units of fuel are never the binding constraint. -/
def runSchedule (c : LoanConfig) : ℕ → SimState → List Entry × SimState
  | 0, s => ([], s)
  | fuel + 1, s =>
    if loopCond c s then
      let stepped := schedStep c s
      let rest := runSchedule c fuel stepped.2
      (stepped.1 :: rest.1, rest.2)
    else ([], s)

/-- The tracking variables as initialized before the loop. -/
def initState (c : LoanConfig) : SimState :=
  ⟨0, c.loanAmount, 1, 0, 0, 0, 0, 0, 0⟩

/-- `LoanCalculator.calculateSchedule(config)`. -/
def calculateSchedule (c : LoanConfig) : Option ScheduleResult :=
  if c.loanAmount ≤ 0 then none
  else
    let run := runSchedule c 600 (initState c)
    let schedule := run.1
    let s := run.2
    some
      { schedule := schedule
        summary :=
          { originalLoan := c.loanAmount
            loanType := c.loanType
            termMonths := s.month
            termYears := (s.month : ℚ) / 12
            totalPaidByUser := s.totalPaidByUser
            totalPaidToLoan := s.totalPaidToLoan
            totalInterest := s.totalInterest
            totalInflation := s.totalInflation
            totalFees := s.totalFees
            totalRentalContribution := s.totalRentalContribution
            firstPayment := ((schedule.head?).map Entry.totalPaymentToLoan).getD 0
            firstUserPayment := ((schedule.head?).map Entry.userOutOfPocket).getD 0
            lastPayment := ((schedule.getLast?).map Entry.totalPaymentToLoan).getD 0
            averageMonthlyPayment := s.totalPaidToLoan / (s.month : ℚ) } }

/-- The schedule of `calculateSchedule c`, or `[]` when the result is null. -/
def scheduleOf (c : LoanConfig) : List Entry :=
  ((calculateSchedule c).map ScheduleResult.schedule).getD []

/-- One entry of `calculateStandardLoan`'s schedule (dates omitted). -/
structure StdEntry where
  month : ℕ
  inflation : ℚ
  interest : ℚ
  principal : ℚ
  payment : ℚ
  balance : ℚ
deriving DecidableEq

instance : Inhabited StdEntry := ⟨⟨0, 0, 0, 0, 0, 0⟩⟩

structure StdSummary where
  originalPrincipal : ℚ
  totalPaid : ℚ
  totalInterest : ℚ
  totalInflation : ℚ
  termMonths : ℕ
  firstPayment : ℚ
  lastPayment : ℚ
deriving DecidableEq

structure StdResult where
  schedule : List StdEntry
  summary : StdSummary
deriving DecidableEq

/-- The mutable loop state of `calculateStandardLoan`: months completed,
running balance, and the accumulated totals. -/
structure StdState where
  month : ℕ
  balance : ℚ
  totalInterest : ℚ
  totalPaid : ℚ
deriving DecidableEq

/-- The legacy engine's base annuity payment (no zero-rate guard in the
source: a zero rate divides by zero there, so callers assume a positive
rate). -/
def stdBasePayment (principal monthlyRate : ℚ) (totalMonths : ℕ) : ℚ :=
  principal * (monthlyRate * (1 + monthlyRate) ^ totalMonths) /
    ((1 + monthlyRate) ^ totalMonths - 1)

/-- One iteration of the `calculateStandardLoan` loop body. -/
def stdStep (monthlyRate basePayment extraPayment paymentFee : ℚ) (s : StdState) :
    StdEntry × StdState :=
  let interest := s.balance * monthlyRate
  let payment := basePayment + extraPayment
  let principalPayment := min (payment - interest) s.balance
  let newBalance := s.balance - principalPayment
  let entry : StdEntry :=
    { month := s.month + 1
      inflation := 0
      interest := interest
      principal := principalPayment
      payment := payment + paymentFee
      balance := max 0 newBalance }
  let next : StdState :=
    { month := s.month + 1
      balance := newBalance
      totalInterest := s.totalInterest + interest
      totalPaid := s.totalPaid + (payment + paymentFee) }
  (entry, next)

/-- The `calculateStandardLoan` loop guard: `month <= 600 && balance > 0.01`
for the next month, i.e. fewer than 600 completed months and a balance above
the cutoff.  (The source's `if (balance <= 0) break` after the push is
subsumed by this guard.) -/
def stdCond (s : StdState) : Bool :=
  decide (s.month < 600) && decide (1 / 100 < s.balance)

/-- The `calculateStandardLoan` loop, fuelled (600 = the source's cap). -/
def stdRun (monthlyRate basePayment extraPayment paymentFee : ℚ) :
    ℕ → StdState → List StdEntry × StdState
  | 0, s => ([], s)
  | fuel + 1, s =>
    if stdCond s then
      let stepped := stdStep monthlyRate basePayment extraPayment paymentFee s
      let rest := stdRun monthlyRate basePayment extraPayment paymentFee fuel stepped.2
      (stepped.1 :: rest.1, rest.2)
    else ([], s)

/-- `calculateStandardLoan(principal, annualRate, years, extraPayment,
paymentFee)` from the legacy module. -/
def calculateStandardLoan (principal annualRate : ℚ) (years : ℕ)
    (extraPayment paymentFee : ℚ) : Option StdResult :=
  if principal ≤ 0 ∨ years = 0 then none
  else
    let monthlyRate := annualRate / 12
    let totalMonths := years * 12
    let basePayment := stdBasePayment principal monthlyRate totalMonths
    let run := stdRun monthlyRate basePayment extraPayment paymentFee 600
      ⟨0, principal, 0, 0⟩
    let schedule := run.1
    let s := run.2
    some
      { schedule := schedule
        summary :=
          { originalPrincipal := principal
            totalPaid := s.totalPaid
            totalInterest := s.totalInterest
            totalInflation := 0
            termMonths := schedule.length
            firstPayment := ((schedule.head?).map StdEntry.payment).getD 0
            lastPayment := ((schedule.getLast?).map StdEntry.payment).getD 0 } }

/-- The schedule of `calculateStandardLoan`, or `[]` when the result is null. -/
def stdScheduleOf (principal annualRate : ℚ) (years : ℕ)
    (extraPayment paymentFee : ℚ) : List StdEntry :=
  ((calculateStandardLoan principal annualRate years extraPayment paymentFee).map
    StdResult.schedule).getD []

/-- Investment configuration record for
`LoanCalculator.calculateInvestmentMetrics`. -/
structure InvestmentConfig where
  propertyPrice : ℚ
  downPaymentPercent : ℚ
  loanFee : ℚ
  schedule : Option (List Entry)
  holdingYears : ℕ
  appreciationRate : ℚ
  sellingCostRate : ℚ
  rentalIncome : Option RentalConfig

structure YearlyPoint where
  year : ℕ
  propertyValue : ℚ
  loanBalance : ℚ
  equity : ℚ
deriving DecidableEq

/-- The metrics record returned by `calculateInvestmentMetrics`.
`annualizedROI` is omitted: the source computes it as
`(1 + totalROI/100) ^ (1/holdingYears)`, a real root with no rational
counterpart; no claim concerns it. -/
structure InvestmentMetrics where
  totalInvested : ℚ
  futurePropertyValue : ℚ
  loanBalanceAtSale : ℚ
  sellingCosts : ℚ
  equityAtSale : ℚ
  totalProfit : ℚ
  cashOnCashReturn : ℚ
  totalROI : ℚ
  totalCashInvested : ℚ
  totalCashFromRent : ℚ
  breakdownByYear : List YearlyPoint
deriving DecidableEq

/-- `schedule[i]?.balance || 0` with a JavaScript-style signed index. -/
def balanceAtIdx (schedule : List Entry) (i : ℤ) : ℚ :=
  if i < 0 then 0
  else ((schedule.get? i.toNat).map Entry.balance).getD 0

/-- `LoanCalculator.calculateYearlyBreakdown(schedule, propertyPrice,
appreciationRate)`. -/
def calculateYearlyBreakdown (schedule : List Entry)
    (propertyPrice appreciationRate : ℚ) : List YearlyPoint :=
  let maxYears := (schedule.length + 11) / 12
  (List.range (maxYears + 1)).map (fun (year : ℕ) =>
    let propertyValue := propertyPrice * (1 + appreciationRate) ^ year
    let monthIndex : ℤ := (year : ℤ) * 12 - 1
    let balance :=
      if year = 0 then ((schedule.head?).map Entry.balanceStart).getD 0
      else if (schedule.length : ℤ) ≤ monthIndex then 0
      else balanceAtIdx schedule monthIndex
    { year := year
      propertyValue := propertyValue
      loanBalance := balance
      equity := propertyValue - balance })

/-- `LoanCalculator.calculateInvestmentMetrics(config)`. -/
def calculateInvestmentMetrics (cfg : InvestmentConfig) : Option InvestmentMetrics :=
  match cfg.schedule with
  | none => none
  | some schedule =>
    let downPayment := cfg.propertyPrice * (cfg.downPaymentPercent / 100)
    let totalInvested := downPayment + cfg.loanFee
    let futureValue := cfg.propertyPrice * (1 + cfg.appreciationRate) ^ cfg.holdingYears
    let sellingCosts := futureValue * cfg.sellingCostRate
    let monthsHeld := cfg.holdingYears * 12
    let loanBalanceAtSale :=
      if schedule.length ≤ monthsHeld then 0
      else balanceAtIdx schedule ((monthsHeld : ℤ) - 1)
    let equityAtSale := futureValue - loanBalanceAtSale - sellingCosts
    let totalProfit := equityAtSale - totalInvested
    let monthsToCount := min monthsHeld schedule.length
    let totalCashInvested :=
      totalInvested + ((schedule.take monthsToCount).map Entry.userOutOfPocket).sum
    let totalCashFromRent :=
      ((schedule.take monthsToCount).map
        (fun m => m.rentalContribution + m.rentBasedExtra)).sum
    let firstYearUserPayments := ((schedule.take 12).map Entry.userOutOfPocket).sum
    let firstYearRentalNet :=
      match cfg.rentalIncome with
      | some r => calculateNetRent r 1 * 12
      | none => 0
    let firstYearCashflow := firstYearRentalNet - firstYearUserPayments
    let cashOnCashReturn :=
      if 0 < totalInvested then firstYearCashflow / totalInvested * 100 else 0
    let totalROI :=
      if 0 < totalInvested then totalProfit / totalInvested * 100 else 0
    some
      { totalInvested := totalInvested
        futurePropertyValue := futureValue
        loanBalanceAtSale := loanBalanceAtSale
        sellingCosts := sellingCosts
        equityAtSale := equityAtSale
        totalProfit := totalProfit
        cashOnCashReturn := cashOnCashReturn
        totalROI := totalROI
        totalCashInvested := totalCashInvested
        totalCashFromRent := totalCashFromRent
        breakdownByYear :=
          calculateYearlyBreakdown schedule cfg.propertyPrice cfg.appreciationRate }

/-! ### Generic facts about the scheduler loop -/

lemma runSchedule_length (c : LoanConfig) :
    ∀ (fuel : ℕ) (s : SimState), (runSchedule c fuel s).1.length ≤ fuel := by
  intro fuel
  induction fuel with
  | zero => intro s; simp [runSchedule]
  | succ f ih =>
    intro s
    by_cases hc : loopCond c s
    · simp only [runSchedule, hc, if_true, List.length_cons]
      exact Nat.succ_le_succ (ih _)
    · simp only [runSchedule, hc, if_false, List.length_nil]
      exact Nat.zero_le _

lemma runSchedule_entries (c : LoanConfig) (P : Entry → Prop)
    (hstep : ∀ s, P (schedStep c s).1) :
    ∀ (fuel : ℕ) (s : SimState), ∀ e ∈ (runSchedule c fuel s).1, P e := by
  intro fuel
  induction fuel with
  | zero => intro s e he; simp [runSchedule] at he
  | succ f ih =>
    intro s e he
    by_cases hc : loopCond c s
    · simp only [runSchedule, hc, if_true, List.mem_cons] at he
      rcases he with he | he
      · exact he ▸ hstep s
      · exact ih _ e he
    · simp [runSchedule, hc] at he

lemma scheduleOf_pos (c : LoanConfig) (h : 0 < c.loanAmount) :
    scheduleOf c = (runSchedule c 600 (initState c)).1 := by
  simp [scheduleOf, calculateSchedule, not_le.mpr h]

lemma schedStep_balance_nonneg (c : LoanConfig) (s : SimState) :
    0 ≤ (schedStep c s).1.balance := by
  simp only [schedStep]
  split
  · exact le_refl 0
  · rename_i hraw
    linarith [not_lt.mp hraw, (by norm_num : (0:ℚ) ≤ 1 / 100)]

/-- Claim C1: for every configuration with a positive loan amount, the
schedule returned by `calculateSchedule` has at most 600 entries and every
entry's `balance` field is nonnegative. -/
theorem c1_schedule_bounds (c : LoanConfig) (h : 0 < c.loanAmount) :
    (scheduleOf c).length ≤ 600 ∧ ∀ e ∈ scheduleOf c, 0 ≤ e.balance := by
  rw [scheduleOf_pos c h]
  exact ⟨runSchedule_length c 600 (initState c),
    runSchedule_entries c (fun e => 0 ≤ e.balance)
      (fun s => schedStep_balance_nonneg c s) 600 (initState c)⟩

def c1wCfg : LoanConfig :=
  { loanAmount := 1200, annualInterestRate := 0, monthlyInflationRaw := 0,
    loanTermYears := 1, monthlyFee := 0, loanType := LoanType.nonIndexedAnnuity,
    extraPayment := 0, indexExtraPayment := false, fixedPayment := 0,
    rentalIncome := none, acceleratedPayoff := false }

theorem c1_schedule_bounds_witness :
    0 < c1wCfg.loanAmount ∧
      ((scheduleOf c1wCfg).length ≤ 600 ∧ ∀ e ∈ scheduleOf c1wCfg, 0 ≤ e.balance) :=
  ⟨by norm_num [c1wCfg], c1_schedule_bounds c1wCfg (by norm_num [c1wCfg])⟩

/-! ### Claim C2: the principal formula -/

lemma schedStep_principal_formula (c : LoanConfig) (s : SimState) :
    (schedStep c s).1.principal =
      max 0 (min (((schedStep c s).1.totalPaymentToLoan - (schedStep c s).1.fee)
        - (schedStep c s).1.interest) (schedStep c s).1.balanceAfterInflation) := by
  simp [schedStep, add_sub_cancel_right]

/-- Claim C2 (amended): every emitted entry's `principal` equals
`max 0 (min ((totalPaymentToLoan - fee) - interest) balanceAfterInflation)`;
the recorded `totalPaymentToLoan` includes the flat monthly fee, which must be
subtracted before comparing with the interest. -/
theorem c2_principal_formula (c : LoanConfig) (h : 0 < c.loanAmount) :
    ∀ e ∈ scheduleOf c,
      e.principal =
        max 0 (min ((e.totalPaymentToLoan - e.fee) - e.interest)
          e.balanceAfterInflation) := by
  rw [scheduleOf_pos c h]
  exact runSchedule_entries c _ (fun s => schedStep_principal_formula c s) 600
    (initState c)

def c2wCfg : LoanConfig :=
  { loanAmount := 1200, annualInterestRate := 0, monthlyInflationRaw := 0,
    loanTermYears := 1, monthlyFee := 10, loanType := LoanType.nonIndexedAnnuity,
    extraPayment := 0, indexExtraPayment := false, fixedPayment := 0,
    rentalIncome := none, acceleratedPayoff := false }

theorem c2_principal_formula_witness :
    0 < c2wCfg.loanAmount ∧
      ∀ e ∈ scheduleOf c2wCfg,
        e.principal =
          max 0 (min ((e.totalPaymentToLoan - e.fee) - e.interest)
            e.balanceAfterInflation) :=
  ⟨by norm_num [c2wCfg], c2_principal_formula c2wCfg (by norm_num [c2wCfg])⟩

lemma runSchedule_cons (c : LoanConfig) (f : ℕ) (s : SimState)
    (h : loopCond c s = true) :
    (runSchedule c (f + 1) s).1 =
      (schedStep c s).1 :: (runSchedule c f (schedStep c s).2).1 := by
  simp [runSchedule, h]

lemma runSchedule_stop (c : LoanConfig) (f : ℕ) (s : SimState)
    (h : loopCond c s = false) : (runSchedule c f s).1 = [] := by
  cases f <;> simp [runSchedule, h]

lemma scheduleOf_headI (c : LoanConfig) (h0 : 0 < c.loanAmount)
    (h : loopCond c (initState c) = true) :
    (scheduleOf c).headI = (schedStep c (initState c)).1 := by
  rw [scheduleOf_pos c h0, show (600 : ℕ) = 599 + 1 from rfl,
    runSchedule_cons _ _ _ h, List.headI_cons]

lemma scheduleOf_ne_nil (c : LoanConfig) (h0 : 0 < c.loanAmount)
    (h : loopCond c (initState c) = true) : scheduleOf c ≠ [] := by
  rw [scheduleOf_pos c h0, show (600 : ℕ) = 599 + 1 from rfl,
    runSchedule_cons _ _ _ h]
  exact List.cons_ne_nil _ _

/-- Claim C2, as stated, is false: with a positive monthly fee the recorded
`totalPaymentToLoan` exceeds the amount actually applied to the loan, so
`max 0 (min (totalPaymentToLoan - interest) balanceAfterInflation)` gives 110
for the first entry of this configuration while the emitted `principal` is
100. -/
theorem c2_counterexample :
    0 < c2wCfg.loanAmount ∧
      scheduleOf c2wCfg ≠ [] ∧
      (scheduleOf c2wCfg).headI.principal ≠
        max 0 (min ((scheduleOf c2wCfg).headI.totalPaymentToLoan
          - (scheduleOf c2wCfg).headI.interest)
          (scheduleOf c2wCfg).headI.balanceAfterInflation) := by
  have hcond : loopCond c2wCfg (initState c2wCfg) = true := by decide
  have hne : scheduleOf c2wCfg ≠ [] :=
    scheduleOf_ne_nil c2wCfg (by norm_num [c2wCfg]) hcond
  have h1 : (schedStep c2wCfg (initState c2wCfg)).1.principal = 100 := by
    norm_num [schedStep, paymentBeforeRentalAt, requiredPaymentAt,
      manualExtraFinalAt, manualExtraAt, balAfterInfl, interestAt, monthlyRateOf,
      monthlyInflOf, totalMonthsOf, basePaymentOf, calculateAnnuityPayment,
      c2wCfg, initState, min_def, max_def]
  have h2 : (schedStep c2wCfg (initState c2wCfg)).1.totalPaymentToLoan = 110 := by
    norm_num [schedStep, paymentBeforeRentalAt, requiredPaymentAt,
      manualExtraFinalAt, manualExtraAt, balAfterInfl, interestAt, monthlyRateOf,
      monthlyInflOf, totalMonthsOf, basePaymentOf, calculateAnnuityPayment,
      c2wCfg, initState]
  have h3 : (schedStep c2wCfg (initState c2wCfg)).1.interest = 0 := by
    norm_num [schedStep, balAfterInfl, interestAt, monthlyRateOf, monthlyInflOf,
      c2wCfg, initState]
  have h4 : (schedStep c2wCfg (initState c2wCfg)).1.balanceAfterInflation = 1200 := by
    norm_num [schedStep, balAfterInfl, monthlyInflOf, c2wCfg, initState]
  refine ⟨by norm_num [c2wCfg], hne, ?_⟩
  rw [scheduleOf_headI c2wCfg (by norm_num [c2wCfg]) hcond, h1, h2, h3, h4]
  norm_num [min_def, max_def]

/-! ### Claim C4: null signalling -/

/-- Claim C4 (amended): `calculateSchedule` is a total function returning
null exactly when `loanAmount ≤ 0`; every configuration with a positive loan
amount gets a non-null `{schedule, summary}` result.  A non-positive interest
rate or term is not otherwise signalled. -/
theorem c4_null_iff (c : LoanConfig) :
    calculateSchedule c = none ↔ c.loanAmount ≤ 0 := by
  by_cases h : c.loanAmount ≤ 0 <;> simp [calculateSchedule, h]

def c4cex : LoanConfig :=
  { loanAmount := 1200, annualInterestRate := 0, monthlyInflationRaw := 0,
    loanTermYears := 1, monthlyFee := 0, loanType := LoanType.nonIndexedAnnuity,
    extraPayment := 0, indexExtraPayment := false, fixedPayment := 0,
    rentalIncome := none, acceleratedPayoff := false }

/-- Claim C4, as stated, is false: a configuration with a non-positive
(zero) interest rate is an "invalid configuration" in the claim's taxonomy,
yet `calculateSchedule` returns a non-null result with a non-empty schedule
rather than an empty or null one. -/
theorem c4_counterexample :
    c4cex.annualInterestRate ≤ 0 ∧ 0 < c4cex.loanAmount ∧
      0 < c4cex.loanTermYears ∧ calculateSchedule c4cex ≠ none ∧
      scheduleOf c4cex ≠ [] := by
  have hpos : ¬ c4cex.loanAmount ≤ 0 := by norm_num [c4cex]
  have hcond : loopCond c4cex (initState c4cex) = true := by decide
  refine ⟨by norm_num [c4cex], by norm_num [c4cex], by norm_num [c4cex], ?_, ?_⟩
  · simp [calculateSchedule, hpos]
  · exact scheduleOf_ne_nil c4cex (by norm_num [c4cex]) hcond

/-! ### Claim C6: the net-rent formula -/

/-- Claim C6: `calculateNetRent` applies the inflation factor to the gross
rent exactly when `indexed` is set and to the operating costs exactly when
`indexCosts` is set, subtracts tax, vacancy and the (possibly indexed)
operating costs, and floors the result at 0, so the result is never
negative. -/
theorem c6_net_rent (r : RentalConfig) (f : ℚ) :
    calculateNetRent r f =
      max 0 ((if r.indexed then r.grossRent * f else r.grossRent)
        - (if r.indexed then r.grossRent * f else r.grossRent) * r.taxRate
        - (if r.indexed then r.grossRent * f else r.grossRent) * r.vacancyRate
        - (if r.indexCosts then r.operatingCosts * f else r.operatingCosts)) ∧
      0 ≤ calculateNetRent r f := by
  constructor
  · rfl
  · simp only [calculateNetRent]
    exact le_max_left _ _

/-! ### Claim C8: annuity payment at zero rate -/

/-- Claim C8 (amended): for every nonnegative principal `P` and every period
count `n`, `calculateAnnuityPayment P 0 n = P / n`.  (For negative `P` the
source's `principal <= 0` guard returns 0 instead.) -/
theorem c8_annuity_zero_rate (P : ℚ) (n : ℕ) (hP : 0 ≤ P) :
    calculateAnnuityPayment P 0 n = P / n := by
  unfold calculateAnnuityPayment
  rcases eq_or_lt_of_le hP with h | h
  · rw [← h]
    simp
  · rw [if_neg (not_le.mpr h), if_pos rfl]

theorem c8_annuity_zero_rate_witness :
    0 ≤ (5 : ℚ) ∧ calculateAnnuityPayment 5 0 2 = 5 / (2 : ℕ) :=
  ⟨by norm_num, c8_annuity_zero_rate 5 2 (by norm_num)⟩

/-- Claim C8, as stated ("for any P"), is false: at the negative principal
-100 and 10 periods the guard returns 0, not -100/10 = -10. -/
theorem c8_counterexample :
    calculateAnnuityPayment (-100) 0 10 = 0 ∧
      (-100 : ℚ) / ((10 : ℕ) : ℚ) = -10 ∧
      calculateAnnuityPayment (-100) 0 10 ≠ (-100 : ℚ) / ((10 : ℕ) : ℚ) := by
  refine ⟨by norm_num [calculateAnnuityPayment], by norm_num, ?_⟩
  norm_num [calculateAnnuityPayment]

/-! ### Claim C3: rent covering the payment -/

/-- Claim C3 (amended): in a period where rental income is configured with
`applyToLoan` set, the rental window is active, and the net rent is at least
the payment due, the emitted entry has `rentalContribution` equal to the
payment, `rentBasedExtra` equal to the net rent minus the payment, and
`userOutOfPocket` equal to the manual extra plus the monthly fee (the
recorded `userOutOfPocket` field includes the flat monthly fee). -/
theorem c3_rent_covers (c : LoanConfig) (s : SimState) (r : RentalConfig)
    (hr : c.rentalIncome = some r) (hap : r.applyToLoan = true)
    (hact : rentalActiveAt c s = true)
    (hge : paymentBeforeRentalAt c s ≤
      calculateNetRent r s.cumulativeInflationFactor) :
    (schedStep c s).1.rentalContribution = paymentBeforeRentalAt c s ∧
      (schedStep c s).1.rentBasedExtra =
        calculateNetRent r s.cumulativeInflationFactor - paymentBeforeRentalAt c s ∧
      (schedStep c s).1.userOutOfPocket = manualExtraFinalAt c s + c.monthlyFee := by
  simp only [schedStep, hr]
  simp [hact, hap, hge]

def c3wRental : RentalConfig :=
  { grossRent := 200, taxRate := 0, vacancyRate := 0, operatingCosts := 0,
    indexed := false, indexCosts := false, applyToLoan := true,
    rentalDurationMonths := none }

def c3wCfg : LoanConfig :=
  { loanAmount := 1200, annualInterestRate := 0, monthlyInflationRaw := 0,
    loanTermYears := 1, monthlyFee := 0, loanType := LoanType.nonIndexedAnnuity,
    extraPayment := 0, indexExtraPayment := false, fixedPayment := 0,
    rentalIncome := some c3wRental, acceleratedPayoff := false }

theorem c3_rent_covers_witness :
    c3wCfg.rentalIncome = some c3wRental ∧ c3wRental.applyToLoan = true ∧
      rentalActiveAt c3wCfg (initState c3wCfg) = true ∧
      paymentBeforeRentalAt c3wCfg (initState c3wCfg) ≤
        calculateNetRent c3wRental (initState c3wCfg).cumulativeInflationFactor ∧
      ((schedStep c3wCfg (initState c3wCfg)).1.rentalContribution =
          paymentBeforeRentalAt c3wCfg (initState c3wCfg) ∧
        (schedStep c3wCfg (initState c3wCfg)).1.rentBasedExtra =
          calculateNetRent c3wRental (initState c3wCfg).cumulativeInflationFactor -
            paymentBeforeRentalAt c3wCfg (initState c3wCfg) ∧
        (schedStep c3wCfg (initState c3wCfg)).1.userOutOfPocket =
          manualExtraFinalAt c3wCfg (initState c3wCfg) + c3wCfg.monthlyFee) := by
  have hge : paymentBeforeRentalAt c3wCfg (initState c3wCfg) ≤
      calculateNetRent c3wRental (initState c3wCfg).cumulativeInflationFactor := by
    norm_num [paymentBeforeRentalAt, requiredPaymentAt, manualExtraAt,
      balAfterInfl, interestAt, monthlyRateOf, monthlyInflOf, totalMonthsOf,
      calculateAnnuityPayment, calculateNetRent, c3wCfg, c3wRental, initState]
  exact ⟨rfl, rfl, by decide, hge,
    c3_rent_covers c3wCfg (initState c3wCfg) c3wRental rfl rfl (by decide) hge⟩

def c3cexRental : RentalConfig :=
  { grossRent := 200, taxRate := 0, vacancyRate := 0, operatingCosts := 0,
    indexed := false, indexCosts := false, applyToLoan := true,
    rentalDurationMonths := none }

def c3cexCfg : LoanConfig :=
  { loanAmount := 1200, annualInterestRate := 0, monthlyInflationRaw := 0,
    loanTermYears := 1, monthlyFee := 5, loanType := LoanType.nonIndexedAnnuity,
    extraPayment := 0, indexExtraPayment := false, fixedPayment := 0,
    rentalIncome := some c3cexRental, acceleratedPayoff := false }

/-- Claim C3, as stated, is false: the first period of this configuration has
rent (200) covering the payment due (100) and a zero manual extra, yet the
emitted entry's `userOutOfPocket` is the monthly fee 5, not the manual extra
0, because the recorded field includes the flat monthly fee. -/
theorem c3_counterexample :
    c3cexCfg.rentalIncome = some c3cexRental ∧ c3cexRental.applyToLoan = true ∧
      rentalActiveAt c3cexCfg (initState c3cexCfg) = true ∧
      paymentBeforeRentalAt c3cexCfg (initState c3cexCfg) ≤
        calculateNetRent c3cexRental (initState c3cexCfg).cumulativeInflationFactor ∧
      (scheduleOf c3cexCfg).headI.userOutOfPocket ≠
        (scheduleOf c3cexCfg).headI.manualExtra := by
  have hcond : loopCond c3cexCfg (initState c3cexCfg) = true := by decide
  have hhead := scheduleOf_headI c3cexCfg (by norm_num [c3cexCfg]) hcond
  refine ⟨rfl, rfl, by decide, ?_, ?_⟩
  · norm_num [paymentBeforeRentalAt, requiredPaymentAt, manualExtraAt,
      balAfterInfl, interestAt, monthlyRateOf, monthlyInflOf, totalMonthsOf,
      calculateAnnuityPayment, calculateNetRent, c3cexCfg, c3cexRental, initState]
  · rw [hhead]
    norm_num [schedStep, paymentBeforeRentalAt, requiredPaymentAt,
      manualExtraFinalAt, manualExtraAt, rentalActiveAt, balAfterInfl,
      interestAt, monthlyRateOf, monthlyInflOf, totalMonthsOf, basePaymentOf,
      calculateAnnuityPayment, calculateNetRent, c3cexCfg, c3cexRental, initState]

/-! ### Claim C10: rental noninterference when applyToLoan is off -/

lemma c10_step (c : LoanConfig) (r : RentalConfig) (h : r.applyToLoan = false)
    (s : SimState) :
    schedStep { c with rentalIncome := some r } s =
      schedStep { c with rentalIncome := none } s := by
  simp only [schedStep, h, Bool.and_false]
  rfl

lemma c10_run (c : LoanConfig) (r : RentalConfig) (h : r.applyToLoan = false) :
    ∀ (fuel : ℕ) (s : SimState),
      runSchedule { c with rentalIncome := some r } fuel s =
        runSchedule { c with rentalIncome := none } fuel s := by
  intro fuel
  induction fuel with
  | zero => intro s; rfl
  | succ f ih =>
    intro s
    have hcond : loopCond { c with rentalIncome := some r } s =
        loopCond { c with rentalIncome := none } s := rfl
    cases hc : loopCond { c with rentalIncome := none } s with
    | true => simp [runSchedule, hcond, hc, c10_step c r h s, ih]
    | false => simp [runSchedule, hcond, hc]

/-- Claim C10: two configurations identical except that one has no rental
income and the other a rental record with `applyToLoan` off produce identical
results (schedule and summary); no rental field can influence the output when
`applyToLoan` is false. -/
theorem c10_rental_noninterference (c : LoanConfig) (r : RentalConfig)
    (h : r.applyToLoan = false) :
    calculateSchedule { c with rentalIncome := some r } =
      calculateSchedule { c with rentalIncome := none } := by
  by_cases hl : c.loanAmount ≤ 0
  · have h1 : ({ c with rentalIncome := some r } : LoanConfig).loanAmount ≤ 0 := hl
    have h2 : ({ c with rentalIncome := none } : LoanConfig).loanAmount ≤ 0 := hl
    simp [calculateSchedule, h1, h2]
  · have h1 : ¬ ({ c with rentalIncome := some r } : LoanConfig).loanAmount ≤ 0 := hl
    have h2 : ¬ ({ c with rentalIncome := none } : LoanConfig).loanAmount ≤ 0 := hl
    have hinit : initState { c with rentalIncome := some r } =
        initState { c with rentalIncome := none } := rfl
    simp only [calculateSchedule, h1, h2, if_false, hinit, c10_run c r h]

def c10wRental : RentalConfig :=
  { grossRent := 300000, taxRate := 11/100, vacancyRate := 1/20,
    operatingCosts := 20000, indexed := true, indexCosts := true,
    applyToLoan := false, rentalDurationMonths := some 24 }

def c10wCfg : LoanConfig :=
  { loanAmount := 10000000, annualInterestRate := 8/100, monthlyInflationRaw := 0,
    loanTermYears := 20, monthlyFee := 0, loanType := LoanType.nonIndexedAnnuity,
    extraPayment := 0, indexExtraPayment := false, fixedPayment := 0,
    rentalIncome := none, acceleratedPayoff := false }

theorem c10_rental_noninterference_witness :
    c10wRental.applyToLoan = false ∧
      calculateSchedule { c10wCfg with rentalIncome := some c10wRental } =
        calculateSchedule { c10wCfg with rentalIncome := none } :=
  ⟨rfl, c10_rental_noninterference c10wCfg c10wRental rfl⟩


/-! ### Claim C5: equal-principal loans pay a constant principal -/


lemma loopCond_month (c : LoanConfig) (s : SimState)
    (hacc : c.acceleratedPayoff = false) (h : loopCond c s = true) :
    s.month < totalMonthsOf c := by
  simp [loopCond, hacc] at h
  exact h.1


lemma loopCond_balance (c : LoanConfig) (s : SimState)
    (hacc : c.acceleratedPayoff = true) (h : loopCond c s = true) :
    1 / 100 < s.balance := by
  simp [loopCond, hacc] at h
  linarith [h.1]

lemma c5_step (c : LoanConfig)
    (hty : c.loanType = LoanType.nonIndexedEqualPrincipal)
    (hex : c.extraPayment = 0)
    (hfx : c.fixedPayment = 0) (hri : c.rentalIncome = none)
    (hL : 0 < c.loanAmount) (s : SimState) (hm : s.month < totalMonthsOf c)
    (hb : s.balance =
      c.loanAmount * ((totalMonthsOf c : ℚ) - (s.month : ℚ)) / (totalMonthsOf c : ℚ)) :
    (schedStep c s).1.principal = c.loanAmount / (totalMonthsOf c : ℚ) ∧
      (schedStep c s).2.month = s.month + 1 ∧
      ((schedStep c s).2.balance =
          c.loanAmount * ((totalMonthsOf c : ℚ) - ((s.month : ℚ) + 1)) /
            (totalMonthsOf c : ℚ) ∨
        ((schedStep c s).2.balance = 0 ∧
          c.loanAmount * ((totalMonthsOf c : ℚ) - ((s.month : ℚ) + 1)) /
            (totalMonthsOf c : ℚ) < 1 / 100)) := by
  have hTn : 0 < totalMonthsOf c := by omega
  have hT : (0 : ℚ) < (totalMonthsOf c : ℚ) := by exact_mod_cast hTn
  have hmq : (s.month : ℚ) < (totalMonthsOf c : ℚ) := by exact_mod_cast hm
  have hX1 : (1 : ℚ) ≤ (totalMonthsOf c : ℚ) - (s.month : ℚ) := by
    have : s.month + 1 ≤ totalMonthsOf c := hm
    have := (Nat.cast_le (α := ℚ)).mpr this
    push_cast at this
    linarith
  have hrem : (max 1 (totalMonthsOf c + 1 - (s.month + 1)) : ℕ) =
      totalMonthsOf c - s.month := by omega
  have hremq : ((totalMonthsOf c - s.month : ℕ) : ℚ) =
      (totalMonthsOf c : ℚ) - (s.month : ℚ) := by
    exact_mod_cast Nat.cast_sub hm.le
  have hinfl0 : monthlyInflOf c = 0 := by
    rw [monthlyInflOf, hty]
    simp
  have hbai : balAfterInfl c s = s.balance := by
    simp [balAfterInfl, hinfl0]
  have hBX : s.balance / ((totalMonthsOf c : ℚ) - (s.month : ℚ)) =
      c.loanAmount / (totalMonthsOf c : ℚ) := by
    rw [hb]
    field_simp
    ring
  have hreq : requiredPaymentAt c s =
      c.loanAmount / (totalMonthsOf c : ℚ) + interestAt c s := by
    cases hA : c.acceleratedPayoff with
    | true =>
      rw [requiredPaymentAt]
      simp only [hty, hA, if_true, reduceIte]
    | false =>
      rw [requiredPaymentAt]
      simp only [hty, hA, if_true, if_false, reduceIte, hrem, hbai, hremq]
      simp only [hBX]
      simp
  have hpbr : paymentBeforeRentalAt c s = requiredPaymentAt c s := by
    rw [paymentBeforeRentalAt, if_neg]
    rw [hfx]
    simp
  have hmex : manualExtraFinalAt c s = 0 := by
    rw [manualExtraFinalAt, if_neg, manualExtraAt, if_neg]
    · rw [hex]; simp
    · rw [hfx]; simp
  have hLe : c.loanAmount / (totalMonthsOf c : ℚ) ≤ s.balance := by
    rw [hb]
    rw [div_le_div_iff₀ hT hT]
    have h0L : (0 : ℚ) ≤ c.loanAmount := hL.le
    nlinarith [mul_nonneg (mul_nonneg h0L
      (by linarith : (0 : ℚ) ≤ (totalMonthsOf c : ℚ) - (s.month : ℚ) - 1)) hT.le]
  have hLTpos : (0 : ℚ) < c.loanAmount / (totalMonthsOf c : ℚ) := by positivity
  have hprin : (schedStep c s).1.principal = c.loanAmount / (totalMonthsOf c : ℚ) := by
    simp only [schedStep, hri]
    simp only [hpbr, hmex, hreq, hbai]
    have h1 : c.loanAmount / (totalMonthsOf c : ℚ) + interestAt c s + 0 + 0
        - interestAt c s = c.loanAmount / (totalMonthsOf c : ℚ) := by ring
    rw [h1]
    rw [min_eq_left hLe, max_eq_right hLTpos.le]
  have hbal : (schedStep c s).2.balance =
      if s.balance - c.loanAmount / (totalMonthsOf c : ℚ) < 1 / 100 then 0
      else s.balance - c.loanAmount / (totalMonthsOf c : ℚ) := by
    simp only [schedStep, hri]
    simp only [hpbr, hmex, hreq, hbai]
    have h1 : c.loanAmount / (totalMonthsOf c : ℚ) + interestAt c s + 0 + 0
        - interestAt c s = c.loanAmount / (totalMonthsOf c : ℚ) := by ring
    rw [h1]
    rw [min_eq_left hLe, max_eq_right hLTpos.le]
  have hnext : s.balance - c.loanAmount / (totalMonthsOf c : ℚ) =
      c.loanAmount * ((totalMonthsOf c : ℚ) - ((s.month : ℚ) + 1)) /
        (totalMonthsOf c : ℚ) := by
    rw [hb]
    field_simp
    ring
  refine ⟨hprin, by simp [schedStep], ?_⟩
  rw [hbal, hnext]
  by_cases hsmall : c.loanAmount * ((totalMonthsOf c : ℚ) - ((s.month : ℚ) + 1)) /
      (totalMonthsOf c : ℚ) < 1 / 100
  · right
    exact ⟨if_pos hsmall, hsmall⟩
  · left
    exact if_neg hsmall

lemma c5_step_zero (c : LoanConfig)
    (hty : c.loanType = LoanType.nonIndexedEqualPrincipal)
    (hex : c.extraPayment = 0)
    (hfx : c.fixedPayment = 0) (hri : c.rentalIncome = none)
    (hL : 0 < c.loanAmount)
    (s : SimState) (hb : s.balance = 0) :
    (schedStep c s).1.principal = 0 ∧
      (schedStep c s).2.balance = 0 ∧ (schedStep c s).2.month = s.month + 1 := by
  have hinfl0 : monthlyInflOf c = 0 := by
    rw [monthlyInflOf, hty]
    simp
  have hbai : balAfterInfl c s = 0 := by
    simp [balAfterInfl, hinfl0, hb]
  have hint : interestAt c s = 0 := by
    simp [interestAt, hbai]
  have hLT0 : (0 : ℚ) ≤ c.loanAmount / (totalMonthsOf c : ℚ) := by positivity
  have hreq : requiredPaymentAt c s = c.loanAmount / (totalMonthsOf c : ℚ) *
      (if c.acceleratedPayoff then 1 else 0) := by
    cases hA : c.acceleratedPayoff with
    | true =>
      rw [requiredPaymentAt]
      simp only [hty, hA, reduceIte, hint]
      simp
    | false =>
      rw [requiredPaymentAt]
      simp only [hty, hA, reduceIte, hbai, hint]
      simp
  have hpbr : paymentBeforeRentalAt c s = requiredPaymentAt c s := by
    rw [paymentBeforeRentalAt, if_neg]
    rw [hfx]
    simp
  have hmex : manualExtraFinalAt c s = 0 := by
    rw [manualExtraFinalAt, if_neg, manualExtraAt, if_neg]
    · rw [hex]; simp
    · rw [hfx]; simp
  have hkey : ∀ x : ℚ, 0 ≤ x → max 0 (min (x + 0 + 0 - 0) 0) = 0 := by
    intro x hx
    rw [max_eq_left]
    exact min_le_of_right_le (by linarith)
  cases hA : c.acceleratedPayoff with
  | true =>
    have hreqv : requiredPaymentAt c s = c.loanAmount / (totalMonthsOf c : ℚ) := by
      rw [hreq, hA]
      simp
    refine ⟨?_, ?_, by simp [schedStep]⟩
    · simp only [schedStep, hri]
      simp only [hpbr, hmex, hreqv, hint, hbai]
      exact hkey _ hLT0
    · simp only [schedStep, hri]
      simp only [hpbr, hmex, hreqv, hint, hbai]
      rw [hkey _ hLT0]
      simp
  | false =>
    have hreqv : requiredPaymentAt c s = 0 := by
      rw [hreq, hA]
      simp
    refine ⟨?_, ?_, by simp [schedStep]⟩
    · simp only [schedStep, hri]
      simp only [hpbr, hmex, hreqv, hint, hbai]
      exact hkey 0 (le_refl 0)
    · simp only [schedStep, hri]
      simp only [hpbr, hmex, hreqv, hint, hbai]
      rw [hkey 0 (le_refl 0)]
      simp

lemma c5_step_t0 (c : LoanConfig)
    (hty : c.loanType = LoanType.nonIndexedEqualPrincipal)
    (hex : c.extraPayment = 0)
    (hfx : c.fixedPayment = 0) (hri : c.rentalIncome = none)
    (hacc : c.acceleratedPayoff = true) (hT0 : totalMonthsOf c = 0)
    (s : SimState) :
    (schedStep c s).1.principal = 0 ∧
      (schedStep c s).2.month = s.month + 1 := by
  have hinfl0 : monthlyInflOf c = 0 := by
    rw [monthlyInflOf, hty]
    simp
  have hbai : balAfterInfl c s = s.balance := by
    simp [balAfterInfl, hinfl0]
  have hreq : requiredPaymentAt c s = interestAt c s := by
    rw [requiredPaymentAt]
    simp only [hty, hacc, reduceIte, hT0]
    simp
  have hpbr : paymentBeforeRentalAt c s = requiredPaymentAt c s := by
    rw [paymentBeforeRentalAt, if_neg]
    rw [hfx]
    simp
  have hmex : manualExtraFinalAt c s = 0 := by
    rw [manualExtraFinalAt, if_neg, manualExtraAt, if_neg]
    · rw [hex]; simp
    · rw [hfx]; simp
  refine ⟨?_, by simp [schedStep]⟩
  simp only [schedStep, hri]
  simp only [hpbr, hmex, hreq, hbai]
  have h1 : interestAt c s + 0 + 0 - interestAt c s = 0 := by ring
  rw [h1, max_eq_left]
  exact min_le_of_left_le (le_refl 0)

lemma c5_run (c : LoanConfig)
    (hty : c.loanType = LoanType.nonIndexedEqualPrincipal)
    (hex : c.extraPayment = 0)
    (hfx : c.fixedPayment = 0) (hri : c.rentalIncome = none)
    (hL : 0 < c.loanAmount) :
    ∀ (fuel : ℕ) (s : SimState),
      ((s.balance =
          c.loanAmount * ((totalMonthsOf c : ℚ) - (s.month : ℚ)) /
            (totalMonthsOf c : ℚ) ∧ s.month ≤ totalMonthsOf c ∧
            totalMonthsOf c ≠ 0) ∨
        (s.balance = 0 ∧ c.loanAmount / (totalMonthsOf c : ℚ) < 1 / 100) ∨
        totalMonthsOf c = 0) →
      ∀ e ∈ (runSchedule c fuel s).1,
        |e.principal - c.loanAmount / (totalMonthsOf c : ℚ)| ≤ 1 / 100 := by
  intro fuel
  induction fuel with
  | zero => intro s _ e he; simp [runSchedule] at he
  | succ f ih =>
    intro s hinv e he
    by_cases hc : loopCond c s
    · rw [runSchedule_cons c f s hc] at he
      rcases hinv with ⟨hb, hmle, hT0⟩ | hrest
      · -- formula regime: derive month < T from the loop guard
        have hm : s.month < totalMonthsOf c := by
          cases hA : c.acceleratedPayoff with
          | false => exact loopCond_month c s hA hc
          | true =>
            rcases lt_or_eq_of_le hmle with h | h
            · exact h
            · exfalso
              have hbpos := loopCond_balance c s hA hc
              rw [hb, h] at hbpos
              simp at hbpos
              linarith
        have hstep := c5_step c hty hex hfx hri hL s hm hb
        rcases List.mem_cons.mp he with he | he
        · rw [he, hstep.1]
          simp
        · rcases hstep.2.2 with hbal | ⟨hbal, hsmall2⟩
          · refine ih (schedStep c s).2 (Or.inl ⟨?_, ?_, hT0⟩) e he
            · rw [hbal, hstep.2.1]
              push_cast
              ring_nf
            · omega
          · by_cases hlast : s.month + 1 = totalMonthsOf c
            · refine ih (schedStep c s).2 (Or.inl ⟨?_, ?_, hT0⟩) e he
              · rw [hbal, hstep.2.1, hlast]
                simp
              · omega
            · have hm1 : s.month + 1 < totalMonthsOf c := by omega
              have hX1 : (1 : ℚ) ≤ (totalMonthsOf c : ℚ) - ((s.month : ℚ) + 1) := by
                have : s.month + 2 ≤ totalMonthsOf c := hm1
                have := (Nat.cast_le (α := ℚ)).mpr this
                push_cast at this
                linarith
              have hT : (0 : ℚ) < (totalMonthsOf c : ℚ) := by
                have : 0 < totalMonthsOf c := by omega
                exact_mod_cast this
              have hsm : c.loanAmount / (totalMonthsOf c : ℚ) < 1 / 100 := by
                have hle : c.loanAmount / (totalMonthsOf c : ℚ) ≤
                    c.loanAmount * ((totalMonthsOf c : ℚ) - ((s.month : ℚ) + 1)) /
                      (totalMonthsOf c : ℚ) := by
                  rw [div_le_div_iff₀ hT hT]
                  nlinarith [mul_nonneg (mul_nonneg hL.le
                    (by linarith : (0 : ℚ) ≤
                      (totalMonthsOf c : ℚ) - ((s.month : ℚ) + 1) - 1)) hT.le]
                exact lt_of_le_of_lt hle hsmall2
              exact ih (schedStep c s).2 (Or.inr (Or.inl ⟨hbal, hsm⟩)) e he
      · rcases hrest with ⟨hb, hsmall⟩ | hT0
        · -- floored-to-zero regime
          have hstep := c5_step_zero c hty hex hfx hri hL s hb
          rcases List.mem_cons.mp he with he | he
          · rw [he, hstep.1]
            rw [abs_sub_comm, sub_zero, abs_of_nonneg (by positivity)]
            exact hsmall.le
          · exact ih (schedStep c s).2 (Or.inr (Or.inl ⟨hstep.2.1, hsmall⟩)) e he
        · -- zero-term regime: only the accelerated loop can be running
          cases hA : c.acceleratedPayoff with
          | false => exact absurd (loopCond_month c s hA hc) (by omega)
          | true =>
            have hstep := c5_step_t0 c hty hex hfx hri hA hT0 s
            rcases List.mem_cons.mp he with he | he
            · rw [he, hstep.1, hT0]
              simp
            · exact ih (schedStep c s).2 (Or.inr (Or.inr hT0)) e he
    · rw [runSchedule_stop c (f + 1) s (Bool.not_eq_true _ ▸ eq_false_of_ne_true hc)] at he
      simp at he

lemma c5_run_exact (c : LoanConfig)
    (hty : c.loanType = LoanType.nonIndexedEqualPrincipal)
    (hex : c.extraPayment = 0)
    (hfx : c.fixedPayment = 0) (hri : c.rentalIncome = none)
    (hL : 0 < c.loanAmount)
    (hbig : 1 / 100 ≤ c.loanAmount / (totalMonthsOf c : ℚ)) :
    ∀ (fuel : ℕ) (s : SimState),
      (s.balance =
          c.loanAmount * ((totalMonthsOf c : ℚ) - (s.month : ℚ)) /
            (totalMonthsOf c : ℚ) ∧ s.month ≤ totalMonthsOf c) →
      ∀ e ∈ (runSchedule c fuel s).1,
        e.principal = c.loanAmount / (totalMonthsOf c : ℚ) := by
  have hT0 : totalMonthsOf c ≠ 0 := by
    intro h
    rw [h] at hbig
    simp at hbig
    linarith
  intro fuel
  induction fuel with
  | zero => intro s _ e he; simp [runSchedule] at he
  | succ f ih =>
    intro s hinv e he
    by_cases hc : loopCond c s
    · have hm : s.month < totalMonthsOf c := by
        cases hA : c.acceleratedPayoff with
        | false => exact loopCond_month c s hA hc
        | true =>
          rcases lt_or_eq_of_le hinv.2 with h | h
          · exact h
          · exfalso
            have hbpos := loopCond_balance c s hA hc
            rw [hinv.1, h] at hbpos
            simp at hbpos
            linarith
      rw [runSchedule_cons c f s hc] at he
      have hstep := c5_step c hty hex hfx hri hL s hm hinv.1
      rcases List.mem_cons.mp he with he | he
      · rw [he, hstep.1]
      · rcases hstep.2.2 with hbal | ⟨hbal, hsmall2⟩
        · refine ih (schedStep c s).2 ⟨?_, ?_⟩ e he
          · rw [hbal, hstep.2.1]
            push_cast
            ring_nf
          · omega
        · by_cases hlast : s.month + 1 = totalMonthsOf c
          · refine ih (schedStep c s).2 ⟨?_, ?_⟩ e he
            · rw [hbal, hstep.2.1, hlast]
              simp
            · omega
          · exfalso
            have hm1 : s.month + 1 < totalMonthsOf c := by omega
            have hX1 : (1 : ℚ) ≤ (totalMonthsOf c : ℚ) - ((s.month : ℚ) + 1) := by
              have : s.month + 2 ≤ totalMonthsOf c := hm1
              have := (Nat.cast_le (α := ℚ)).mpr this
              push_cast at this
              linarith
            have hT : (0 : ℚ) < (totalMonthsOf c : ℚ) := by
              have : 0 < totalMonthsOf c := by omega
              exact_mod_cast this
            have hle : c.loanAmount / (totalMonthsOf c : ℚ) ≤
                c.loanAmount * ((totalMonthsOf c : ℚ) - ((s.month : ℚ) + 1)) /
                  (totalMonthsOf c : ℚ) := by
              rw [div_le_div_iff₀ hT hT]
              nlinarith [mul_nonneg (mul_nonneg hL.le
                (by linarith : (0 : ℚ) ≤
                  (totalMonthsOf c : ℚ) - ((s.month : ℚ) + 1) - 1)) hT.le]
            linarith
    · rw [runSchedule_stop c (f + 1) s (Bool.not_eq_true _ ▸ eq_false_of_ne_true hc)] at he
      simp at he

/-- Claim C5: for an equal-principal loan with no inflation, no extra
payment, no fixed-payment override and no rental blending (under either
amortization policy, legacy or recalculating), every emitted entry's
`principal` is `loanAmount/totalMonths` within 1/100 of a currency unit (the
engine's balance-flooring granularity); in particular, for
loanAmount = 12,000,000 over 10 years every period's principal is exactly
100,000. -/
theorem c5_equal_principal (c : LoanConfig)
    (hty : c.loanType = LoanType.nonIndexedEqualPrincipal)
    (hex : c.extraPayment = 0)
    (hfx : c.fixedPayment = 0) (hri : c.rentalIncome = none)
    (hinfl : c.monthlyInflationRaw = 0) (hL : 0 < c.loanAmount) :
    (∀ e ∈ scheduleOf c,
        |e.principal - c.loanAmount / (totalMonthsOf c : ℚ)| ≤ 1 / 100) ∧
      (c.loanAmount = 12000000 → c.loanTermYears = 10 →
        ∀ e ∈ scheduleOf c, e.principal = 100000) := by
  rw [scheduleOf_pos c hL]
  by_cases hT0 : totalMonthsOf c = 0
  · constructor
    · exact c5_run c hty hex hfx hri hL 600 (initState c) (Or.inr (Or.inr hT0))
    · intro hL12 hy10
      exfalso
      rw [totalMonthsOf, hy10] at hT0
      omega
  · have hT : (0 : ℚ) < (totalMonthsOf c : ℚ) := by
      have : 0 < totalMonthsOf c := Nat.pos_of_ne_zero hT0
      exact_mod_cast this
    have hinit : (initState c).balance =
        c.loanAmount * ((totalMonthsOf c : ℚ) - ((initState c).month : ℚ)) /
          (totalMonthsOf c : ℚ) := by
      simp only [initState]
      push_cast
      field_simp
    constructor
    · exact c5_run c hty hex hfx hri hL 600 (initState c)
        (Or.inl ⟨hinit, Nat.zero_le _, hT0⟩)
    · intro hL12 hy10
      have hTv : totalMonthsOf c = 120 := by simp [totalMonthsOf, hy10]
      have hval : c.loanAmount / (totalMonthsOf c : ℚ) = 100000 := by
        rw [hL12, hTv]
        norm_num
      have hbig : 1 / 100 ≤ c.loanAmount / (totalMonthsOf c : ℚ) := by
        rw [hval]
        norm_num
      intro e he
      rw [← hval]
      exact c5_run_exact c hty hex hfx hri hL hbig 600 (initState c)
        ⟨hinit, Nat.zero_le _⟩ e he

def c5wCfg : LoanConfig :=
  { loanAmount := 12000000, annualInterestRate := 4/100, monthlyInflationRaw := 0,
    loanTermYears := 10, monthlyFee := 0,
    loanType := LoanType.nonIndexedEqualPrincipal,
    extraPayment := 0, indexExtraPayment := false, fixedPayment := 0,
    rentalIncome := none, acceleratedPayoff := false }

theorem c5_equal_principal_witness :
    c5wCfg.loanType = LoanType.nonIndexedEqualPrincipal ∧
      0 < c5wCfg.loanAmount ∧ c5wCfg.loanAmount = 12000000 ∧
      c5wCfg.loanTermYears = 10 ∧
      ∀ e ∈ scheduleOf c5wCfg, e.principal = 100000 :=
  ⟨rfl, by norm_num [c5wCfg], rfl, rfl,
    (c5_equal_principal c5wCfg rfl rfl rfl rfl rfl
      (by norm_num [c5wCfg])).2 rfl rfl⟩

/-! ### Claim C7: loan balance at sale -/

/-- Claim C7: for every investment configuration with a non-null schedule,
`loanBalanceAtSale` is 0 whenever `holdingYears*12` is at least the schedule
length, and otherwise (for a positive holding period) it is the `balance` of
the schedule entry at index `holdingYears*12 - 1`. -/
theorem c7_balance_at_sale (cfg : InvestmentConfig) (s : List Entry)
    (hs : cfg.schedule = some s) :
    (s.length ≤ cfg.holdingYears * 12 →
      (calculateInvestmentMetrics cfg).map InvestmentMetrics.loanBalanceAtSale =
        some 0) ∧
      (1 ≤ cfg.holdingYears → ∀ hlt : cfg.holdingYears * 12 < s.length,
        (calculateInvestmentMetrics cfg).map InvestmentMetrics.loanBalanceAtSale =
          some ((s.get ⟨cfg.holdingYears * 12 - 1, by omega⟩).balance)) := by
  constructor
  · intro hle
    simp only [calculateInvestmentMetrics, hs, Option.map_some]
    simp [if_pos hle]
  · intro hy hlt
    have hidx : cfg.holdingYears * 12 - 1 < s.length := by omega
    simp only [calculateInvestmentMetrics, hs, Option.map_some]
    rw [if_neg (by omega)]
    simp only [balanceAtIdx]
    rw [if_neg (by omega)]
    have htn : (((cfg.holdingYears * 12 : ℕ) : ℤ) - 1).toNat =
        cfg.holdingYears * 12 - 1 := by
      omega
    rw [htn, List.get?_eq_get hidx]
    simp

def c7wCfg : InvestmentConfig :=
  { propertyPrice := 50000000, downPaymentPercent := 20, loanFee := 100000,
    schedule := some [default], holdingYears := 1, appreciationRate := 3/100,
    sellingCostRate := 2/100, rentalIncome := none }

theorem c7_balance_at_sale_witness :
    c7wCfg.schedule = some [default] ∧
      ([(default : Entry)]).length ≤ c7wCfg.holdingYears * 12 ∧
      (calculateInvestmentMetrics c7wCfg).map InvestmentMetrics.loanBalanceAtSale =
        some 0 :=
  ⟨rfl, by norm_num [c7wCfg],
    (c7_balance_at_sale c7wCfg [default] rfl).1 (by norm_num [c7wCfg])⟩

/-! ### Claim C9: legacy engine versus canonical engine -/


/-- Entry-wise match between the legacy and canonical schedules: interest and
principal agree everywhere, balances agree except possibly in the final
entry, where the canonical engine may have floored a sub-0.01 residual to
zero. -/
inductive EntriesMatch : List StdEntry → List Entry → Prop where
  | nil : EntriesMatch [] []
  | last (a : StdEntry) (b : Entry) :
      a.interest = b.interest → a.principal = b.principal →
      (a.balance = b.balance ∨
        (b.balance = 0 ∧ 0 ≤ a.balance ∧ a.balance < 1 / 100)) →
      EntriesMatch [a] [b]
  | cons (a : StdEntry) (b : Entry) (a2 : StdEntry) (b2 : Entry)
      (as : List StdEntry) (bs : List Entry) :
      a.interest = b.interest → a.principal = b.principal →
      a.balance = b.balance → EntriesMatch (a2 :: as) (b2 :: bs) →
      EntriesMatch (a :: a2 :: as) (b :: b2 :: bs)

lemma EntriesMatch.cons_of (a : StdEntry) (b : Entry) (as : List StdEntry)
    (bs : List Entry) (hi : a.interest = b.interest)
    (hp : a.principal = b.principal) (hb : a.balance = b.balance)
    (h : EntriesMatch as bs) : EntriesMatch (a :: as) (b :: bs) := by
  cases h with
  | nil => exact .last a b hi hp (Or.inl hb)
  | last a2 b2 h1 h2 h3 => exact .cons a b a2 b2 [] [] hi hp hb (.last a2 b2 h1 h2 h3)
  | cons a2 b2 a3 b3 as bs h1 h2 h3 h4 =>
    exact .cons a b a2 b2 (a3 :: as) (b3 :: bs) hi hp hb (.cons a2 b2 a3 b3 as bs h1 h2 h3 h4)

lemma EntriesMatch.length_eq {as : List StdEntry} {bs : List Entry}
    (h : EntriesMatch as bs) : as.length = bs.length := by
  induction h with
  | nil => rfl
  | last a b h1 h2 h3 => rfl
  | cons a b a2 b2 as bs h1 h2 h3 h4 ih => simpa using ih

lemma stdRun_cons (mr base ex fee : ℚ) (f : ℕ) (s : StdState)
    (h : stdCond s = true) :
    (stdRun mr base ex fee (f + 1) s).1 =
      (stdStep mr base ex fee s).1 ::
        (stdRun mr base ex fee f (stdStep mr base ex fee s).2).1 := by
  simp [stdRun, h]

lemma stdRun_stop (mr base ex fee : ℚ) (f : ℕ) (s : StdState)
    (h : stdCond s = false) : (stdRun mr base ex fee f s).1 = [] := by
  cases f <;> simp [stdRun, h]

/-- The canonical-engine configuration that claim C9 compares with the legacy
`calculateStandardLoan`. -/
def c9config (P annualRate : ℚ) (years : ℕ) (ex fee : ℚ) : LoanConfig :=
  { loanAmount := P, annualInterestRate := annualRate, monthlyInflationRaw := 0,
    loanTermYears := years, monthlyFee := fee,
    loanType := LoanType.nonIndexedAnnuity, extraPayment := ex,
    indexExtraPayment := false, fixedPayment := 0, rentalIncome := none,
    acceleratedPayoff := true }

lemma c9_infl (P annualRate : ℚ) (years : ℕ) (ex fee : ℚ) :
    monthlyInflOf (c9config P annualRate years ex fee) = 0 := by
  simp [monthlyInflOf, c9config]

lemma c9_base (P annualRate : ℚ) (years : ℕ) (ex fee : ℚ)
    (hr0 : annualRate / 12 ≠ 0) :
    basePaymentOf (c9config P annualRate years ex fee) =
      stdBasePayment P (annualRate / 12) (years * 12) := by
  simp [basePaymentOf, stdBasePayment, c9config, monthlyRateOf, totalMonthsOf, hr0]

lemma c9_pbr (P annualRate : ℚ) (years : ℕ) (ex fee : ℚ) (t : SimState) :
    paymentBeforeRentalAt (c9config P annualRate years ex fee) t =
      basePaymentOf (c9config P annualRate years ex fee) := by
  rw [paymentBeforeRentalAt, if_neg, requiredPaymentAt]
  · simp [c9config]
  · simp [c9config]

lemma c9_mex (P annualRate : ℚ) (years : ℕ) (ex fee : ℚ) (he : 0 ≤ ex)
    (t : SimState) :
    manualExtraFinalAt (c9config P annualRate years ex fee) t = ex := by
  rw [manualExtraFinalAt, if_neg, manualExtraAt]
  · rcases eq_or_lt_of_le he with h | h
    · rw [if_neg]
      · exact h.symm ▸ h
      · simp [c9config, ← h]
    · rw [if_pos]
      · simp [c9config]
      · simpa [c9config] using h
  · simp [c9config]

lemma c9_step_fields (P annualRate : ℚ) (years : ℕ) (ex fee : ℚ)
    (hr0 : annualRate / 12 ≠ 0) (he : 0 ≤ ex) (t : SimState) :
    (schedStep (c9config P annualRate years ex fee) t).1.interest =
        t.balance * (annualRate / 12) ∧
      (schedStep (c9config P annualRate years ex fee) t).1.principal =
        max 0 (min (stdBasePayment P (annualRate / 12) (years * 12) + ex
          - t.balance * (annualRate / 12)) t.balance) ∧
      (schedStep (c9config P annualRate years ex fee) t).1.balance =
        (schedStep (c9config P annualRate years ex fee) t).2.balance ∧
      (schedStep (c9config P annualRate years ex fee) t).2.balance =
        (if t.balance - max 0 (min (stdBasePayment P (annualRate / 12) (years * 12)
            + ex - t.balance * (annualRate / 12)) t.balance) < 1 / 100 then 0
          else t.balance - max 0 (min (stdBasePayment P (annualRate / 12) (years * 12)
            + ex - t.balance * (annualRate / 12)) t.balance)) ∧
      (schedStep (c9config P annualRate years ex fee) t).2.month = t.month + 1 := by
  have hnone : (c9config P annualRate years ex fee).rentalIncome = none := rfl
  have hrate : (c9config P annualRate years ex fee).annualInterestRate = annualRate :=
    rfl
  refine ⟨?_, ?_, ?_, ?_, ?_⟩ <;>
    simp [schedStep, hnone, c9_pbr, c9_mex P annualRate years ex fee he,
      c9_base P annualRate years ex fee hr0, balAfterInfl, interestAt, c9_infl,
      monthlyRateOf, hrate, mul_zero, add_zero]

lemma stdBasePayment_gt (P mr : ℚ) (hP : 0 < P) (hmr : 0 < mr) (T : ℕ)
    (hT : T ≠ 0) : P * mr < stdBasePayment P mr T := by
  have hq : (1 : ℚ) < 1 + mr := by linarith
  have hA : (1 : ℚ) < (1 + mr) ^ T := one_lt_pow₀ hq hT
  rw [stdBasePayment, lt_div_iff₀ (by linarith)]
  nlinarith [mul_pos hP hmr]

lemma c9_lockstep (P annualRate : ℚ) (years : ℕ) (ex fee : ℚ)
    (hP : 0 < P) (hr : 0 < annualRate) (hy : years ≠ 0) (he : 0 ≤ ex) :
    ∀ (fuel : ℕ) (s : StdState) (t : SimState),
      s.balance = t.balance → s.month = t.month → 0 ≤ t.balance → t.balance ≤ P →
      EntriesMatch
        (stdRun (annualRate / 12) (stdBasePayment P (annualRate / 12) (years * 12))
          ex fee fuel s).1
        (runSchedule (c9config P annualRate years ex fee) fuel t).1 := by
  have hmr : (0 : ℚ) < annualRate / 12 := by positivity
  have hr0 : annualRate / 12 ≠ 0 := hmr.ne'
  have hbase := stdBasePayment_gt P (annualRate / 12) hP hmr (years * 12) (by omega)
  have haccel : (c9config P annualRate years ex fee).acceleratedPayoff = true := rfl
  intro fuel
  induction fuel with
  | zero =>
    intro s t _ _ _ _
    exact EntriesMatch.nil
  | succ f ih =>
    intro s t hbal hmon hb0 hbP
    by_cases h1 : (1 : ℚ) / 100 < t.balance
    · by_cases h2 : t.month < 600
      · -- both loops iterate
        have hstdc : stdCond s = true := by
          rw [stdCond, hbal, hmon, decide_eq_true h2, decide_eq_true h1]
          rfl
        have hschc : loopCond (c9config P annualRate years ex fee) t = true := by
          rw [loopCond]
          simp only [haccel, reduceIte]
          rw [decide_eq_true h1, decide_eq_true h2]
          rfl
        rw [stdRun_cons _ _ _ _ f s hstdc, runSchedule_cons _ f t hschc]
        have hf := c9_step_fields P annualRate years ex fee hr0 he t
        have hint : t.balance * (annualRate / 12) <
            stdBasePayment P (annualRate / 12) (years * 12) + ex := by
          have : t.balance * (annualRate / 12) ≤ P * (annualRate / 12) :=
            mul_le_mul_of_nonneg_right hbP hmr.le
          linarith
        have hXpos : 0 < stdBasePayment P (annualRate / 12) (years * 12) + ex
            - t.balance * (annualRate / 12) := by linarith
        have hprnn : 0 ≤ min (stdBasePayment P (annualRate / 12) (years * 12) + ex
            - t.balance * (annualRate / 12)) t.balance :=
          le_min hXpos.le hb0
        have hprmax : max 0 (min (stdBasePayment P (annualRate / 12) (years * 12) + ex
            - t.balance * (annualRate / 12)) t.balance) =
            min (stdBasePayment P (annualRate / 12) (years * 12) + ex
              - t.balance * (annualRate / 12)) t.balance :=
          max_eq_right hprnn
        have hprle : min (stdBasePayment P (annualRate / 12) (years * 12) + ex
            - t.balance * (annualRate / 12)) t.balance ≤ t.balance :=
          min_le_right _ _
        set pr := min (stdBasePayment P (annualRate / 12) (years * 12) + ex
          - t.balance * (annualRate / 12)) t.balance with hprdef
        have hb2 : 0 ≤ t.balance - pr := by linarith
        have hb2P : t.balance - pr ≤ P := by linarith
        have hiEq : (stdStep (annualRate / 12)
              (stdBasePayment P (annualRate / 12) (years * 12)) ex fee s).1.interest =
            (schedStep (c9config P annualRate years ex fee) t).1.interest := by
          rw [hf.1]
          simp [stdStep, hbal]
        have hpEq : (stdStep (annualRate / 12)
              (stdBasePayment P (annualRate / 12) (years * 12)) ex fee s).1.principal =
            (schedStep (c9config P annualRate years ex fee) t).1.principal := by
          rw [hf.2.1, hprmax]
          simp [stdStep, hbal, hprdef]
        have hstdEB : (stdStep (annualRate / 12)
              (stdBasePayment P (annualRate / 12) (years * 12)) ex fee s).1.balance =
            t.balance - pr := by
          simp only [stdStep, hbal]
          exact max_eq_right (by simpa [hprdef] using hb2)
        have hstdSB : (stdStep (annualRate / 12)
              (stdBasePayment P (annualRate / 12) (years * 12)) ex fee s).2.balance =
            t.balance - pr := by
          simp [stdStep, hbal, hprdef]
        have hstdSM : (stdStep (annualRate / 12)
              (stdBasePayment P (annualRate / 12) (years * 12)) ex fee s).2.month =
            s.month + 1 := by
          simp [stdStep]
        by_cases hcl : t.balance - pr < 1 / 100
        · -- final iteration: the canonical engine floors the residual to 0
          have hschB : (schedStep (c9config P annualRate years ex fee) t).2.balance
              = 0 := by
            rw [hf.2.2.2.1, hprmax, if_pos hcl]
          have hstdStop : stdCond (stdStep (annualRate / 12)
              (stdBasePayment P (annualRate / 12) (years * 12)) ex fee s).2 = false := by
            rw [stdCond, hstdSB, decide_eq_false (not_lt.mpr hcl.le), Bool.and_false]
          have hschStop : loopCond (c9config P annualRate years ex fee)
              (schedStep (c9config P annualRate years ex fee) t).2 = false := by
            rw [loopCond, hschB]
            simp only [haccel, reduceIte]
            rw [decide_eq_false (by norm_num : ¬ ((1 : ℚ) / 100 < (0 : ℚ))),
              Bool.false_and]
          rw [stdRun_stop _ _ _ _ f _ hstdStop, runSchedule_stop _ f _ hschStop]
          refine EntriesMatch.last _ _ hiEq hpEq (Or.inr ⟨?_, ?_, ?_⟩)
          · rw [hf.2.2.1, hschB]
          · rw [hstdEB]; exact hb2
          · rw [hstdEB]; exact hcl
        · -- both continue with equal balances
          have hschB : (schedStep (c9config P annualRate years ex fee) t).2.balance
              = t.balance - pr := by
            rw [hf.2.2.2.1, hprmax, if_neg hcl]
          have htail := ih (stdStep (annualRate / 12)
              (stdBasePayment P (annualRate / 12) (years * 12)) ex fee s).2
            (schedStep (c9config P annualRate years ex fee) t).2
            (by rw [hstdSB, hschB]) (by rw [hstdSM, hf.2.2.2.2, hmon])
            (by rw [hschB]; exact hb2) (by rw [hschB]; exact hb2P)
          refine EntriesMatch.cons_of _ _ _ _ hiEq hpEq ?_ htail
          rw [hstdEB, hf.2.2.1, hschB]
      · -- month cap reached: both stop
        have hstdStop : stdCond s = false := by
          rw [stdCond, hmon, decide_eq_false h2, Bool.false_and]
        have hschStop : loopCond (c9config P annualRate years ex fee) t = false := by
          rw [loopCond]
          simp only [haccel, reduceIte]
          rw [decide_eq_false h2, Bool.and_false]
        rw [stdRun_stop _ _ _ _ _ _ hstdStop, runSchedule_stop _ _ _ hschStop]
        exact EntriesMatch.nil
    · -- balance at or below the cutoff: both stop
      have hstdStop : stdCond s = false := by
        rw [stdCond, hbal, decide_eq_false h1, Bool.and_false]
      have hschStop : loopCond (c9config P annualRate years ex fee) t = false := by
        rw [loopCond]
        simp only [haccel, reduceIte]
        rw [decide_eq_false h1, Bool.false_and]
      rw [stdRun_stop _ _ _ _ _ _ hstdStop, runSchedule_stop _ _ _ hschStop]
      exact EntriesMatch.nil

/-- Claim C9 (amended): for every loan with positive amount, rate and term
and nonnegative extra payment and fee, the legacy `calculateStandardLoan` and
the canonical `calculateSchedule` (loan type `nonIndexedAnnuity`,
`acceleratedPayoff` on) produce schedules of equal length with equal
per-month interest and principal; end-of-month balances are equal in every
month except possibly the final one, where the canonical engine floors a
residual below 0.01 to exactly 0 while the legacy engine records the
residual. -/
theorem c9_engines_match (P annualRate : ℚ) (years : ℕ) (ex fee : ℚ)
    (hP : 0 < P) (hr : 0 < annualRate) (hy : 0 < years) (he : 0 ≤ ex)
    (hfee : 0 ≤ fee) :
    (stdScheduleOf P annualRate years ex fee).length =
        (scheduleOf (c9config P annualRate years ex fee)).length ∧
      EntriesMatch (stdScheduleOf P annualRate years ex fee)
        (scheduleOf (c9config P annualRate years ex fee)) := by
  have hstd : stdScheduleOf P annualRate years ex fee =
      (stdRun (annualRate / 12) (stdBasePayment P (annualRate / 12) (years * 12))
        ex fee 600 ⟨0, P, 0, 0⟩).1 := by
    have hcond : ¬ (P ≤ 0 ∨ years = 0) := by
      push_neg
      exact ⟨hP, hy.ne'⟩
    simp [stdScheduleOf, calculateStandardLoan, hcond]
  have hsch : scheduleOf (c9config P annualRate years ex fee) =
      (runSchedule (c9config P annualRate years ex fee) 600
        (initState (c9config P annualRate years ex fee))).1 :=
    scheduleOf_pos _ hP
  have hmatch := c9_lockstep P annualRate years ex fee hP hr hy.ne' he 600
    ⟨0, P, 0, 0⟩ (initState (c9config P annualRate years ex fee)) rfl rfl hP.le
    (le_refl P)
  rw [hstd, hsch]
  exact ⟨hmatch.length_eq, hmatch⟩

theorem c9_engines_match_witness :
    0 < (1200 : ℚ) ∧ 0 < (12 / 100 : ℚ) ∧ 0 < (1 : ℕ) ∧ 0 ≤ (0 : ℚ) ∧
      ((stdScheduleOf 1200 (12 / 100) 1 0 0).length =
          (scheduleOf (c9config 1200 (12 / 100) 1 0 0)).length ∧
        EntriesMatch (stdScheduleOf 1200 (12 / 100) 1 0 0)
          (scheduleOf (c9config 1200 (12 / 100) 1 0 0))) :=
  ⟨by norm_num, by norm_num, by norm_num, le_refl 0,
    c9_engines_match 1200 (12 / 100) 1 0 0 (by norm_num) (by norm_num)
      (by norm_num) (le_refl 0) (le_refl 0)⟩

/-- The extra payment that leaves a residual balance of exactly 1/200 after
the first month of the claim-C9 counterexample loan. -/
def c9e : ℚ := (1010 - 1 / 200) - stdBasePayment 1000 ((12 / 100) / 12) 12

/-- Claim C9, as stated, is false: at this configuration (extra payment
tuned so the first month leaves a residual balance of exactly 1/200) both
engines emit a single entry, but the canonical engine records a final
balance of 0 while the legacy engine records 1/200, so the end-of-month
balances are not all equal. -/
theorem c9_counterexample :
    0 < (1000 : ℚ) ∧ 0 < (12 / 100 : ℚ) ∧ 0 < (1 : ℕ) ∧ 0 ≤ c9e ∧
      (stdScheduleOf 1000 (12 / 100) 1 c9e 0).length = 1 ∧
      (scheduleOf (c9config 1000 (12 / 100) 1 c9e 0)).length = 1 ∧
      (stdScheduleOf 1000 (12 / 100) 1 c9e 0).headI.balance = 1 / 200 ∧
      (scheduleOf (c9config 1000 (12 / 100) 1 c9e 0)).headI.balance = 0 := by
  have he : (0 : ℚ) ≤ c9e := by norm_num [c9e, stdBasePayment]
  have haccel : (c9config 1000 (12 / 100) 1 c9e 0).acceleratedPayoff = true := rfl
  have hinitb : (initState (c9config 1000 (12 / 100) 1 c9e 0)).balance = 1000 := rfl
  have hinitm : (initState (c9config 1000 (12 / 100) 1 c9e 0)).month = 0 := rfl
  have hcond : loopCond (c9config 1000 (12 / 100) 1 c9e 0)
      (initState (c9config 1000 (12 / 100) 1 c9e 0)) = true := by
    simp only [loopCond, haccel, reduceIte, hinitb, hinitm, Bool.and_eq_true,
      decide_eq_true_eq]
    norm_num
  have hf := c9_step_fields 1000 (12 / 100) 1 c9e 0 (by norm_num) he
    (initState (c9config 1000 (12 / 100) 1 c9e 0))
  have hbal1 : (schedStep (c9config 1000 (12 / 100) 1 c9e 0)
      (initState (c9config 1000 (12 / 100) 1 c9e 0))).2.balance = 0 := by
    rw [hf.2.2.2.1, hinitb]
    norm_num [c9e, stdBasePayment, min_def, max_def]
  have hent1 : (schedStep (c9config 1000 (12 / 100) 1 c9e 0)
      (initState (c9config 1000 (12 / 100) 1 c9e 0))).1.balance = 0 := by
    rw [hf.2.2.1]
    exact hbal1
  have hstop : loopCond (c9config 1000 (12 / 100) 1 c9e 0)
      (schedStep (c9config 1000 (12 / 100) 1 c9e 0)
        (initState (c9config 1000 (12 / 100) 1 c9e 0))).2 = false := by
    rw [loopCond]
    simp only [haccel, reduceIte, hbal1]
    rw [decide_eq_false (by norm_num : ¬ ((1 : ℚ) / 100 < (0 : ℚ))), Bool.false_and]
  have hschedlist : scheduleOf (c9config 1000 (12 / 100) 1 c9e 0) =
      [(schedStep (c9config 1000 (12 / 100) 1 c9e 0)
        (initState (c9config 1000 (12 / 100) 1 c9e 0))).1] := by
    rw [scheduleOf_pos _ (by norm_num [c9config] : (0 : ℚ) <
        (c9config 1000 (12 / 100) 1 c9e 0).loanAmount),
      show (600 : ℕ) = 599 + 1 from rfl, runSchedule_cons _ _ _ hcond,
      runSchedule_stop _ _ _ hstop]
  have hstdsched : stdScheduleOf 1000 (12 / 100) 1 c9e 0 =
      (stdRun ((12 / 100) / 12) (stdBasePayment 1000 ((12 / 100) / 12) 12)
        c9e 0 600 ⟨0, 1000, 0, 0⟩).1 := by
    simp [stdScheduleOf, calculateStandardLoan]
    norm_num
  have hstdcond : stdCond (⟨0, 1000, 0, 0⟩ : StdState) = true := by
    simp only [stdCond, Bool.and_eq_true, decide_eq_true_eq]
    norm_num
  have hstdbal : (stdStep ((12 / 100) / 12)
      (stdBasePayment 1000 ((12 / 100) / 12) 12) c9e 0
      (⟨0, 1000, 0, 0⟩ : StdState)).2.balance = 1 / 200 := by
    simp only [stdStep]
    norm_num [c9e, stdBasePayment, min_def]
  have hstdent : (stdStep ((12 / 100) / 12)
      (stdBasePayment 1000 ((12 / 100) / 12) 12) c9e 0
      (⟨0, 1000, 0, 0⟩ : StdState)).1.balance = 1 / 200 := by
    simp only [stdStep]
    norm_num [c9e, stdBasePayment, min_def, max_def]
  have hstdstop : stdCond (stdStep ((12 / 100) / 12)
      (stdBasePayment 1000 ((12 / 100) / 12) 12) c9e 0
      (⟨0, 1000, 0, 0⟩ : StdState)).2 = false := by
    rw [stdCond, hstdbal,
      decide_eq_false (by norm_num : ¬ ((1 : ℚ) / 100 < (1 : ℚ) / 200)),
      Bool.and_false]
  have hstdlist : stdScheduleOf 1000 (12 / 100) 1 c9e 0 =
      [(stdStep ((12 / 100) / 12) (stdBasePayment 1000 ((12 / 100) / 12) 12)
        c9e 0 (⟨0, 1000, 0, 0⟩ : StdState)).1] := by
    rw [hstdsched, show (600 : ℕ) = 599 + 1 from rfl,
      stdRun_cons _ _ _ _ _ _ hstdcond, stdRun_stop _ _ _ _ _ _ hstdstop]
  refine ⟨by norm_num, by norm_num, by norm_num, he, ?_, ?_, ?_, ?_⟩
  · rw [hstdlist]
    rfl
  · rw [hschedlist]
    rfl
  · rw [hstdlist, List.headI_cons]
    exact hstdent
  · rw [hschedlist, List.headI_cons]
    exact hent1
